import Mathlib

/-!
Shallow embedding of the HandGestureMouseController repository
(cursor_controller.py, hand_tracker.py, adaptive_game.py) and proofs
about the behaviour of its core components.

Conventions of the embedding:
* times (time.time()) are passed explicitly as rational arguments;
* pyautogui side effects are modelled as an emitted list of events;
* Euclidean-distance comparisons from the source are modelled on squared
  distances (both sides are nonnegative, so the comparisons agree);
* Python float values are modelled as rationals;
* Python int() truncation toward zero is modelled by pyInt;
* a Python ZeroDivisionError is modelled by an Option-valued function
  returning none.
-/

namespace HGMC

/-- Side effects delegated to pyautogui, in emission order. -/
inductive Event where
  | click
  | rightClick
  | doubleClick
  | scrollUp
  | scrollDown
  | mouseDown
  | mouseUp
  deriving DecidableEq, Repr

/-- The mutable fields of CursorController (cursor_controller.py, __init__). -/
structure CursorState where
  cursor_enabled : Bool
  inverse_cursor : Bool
  adaptive_sensitivity : ℚ
  adaptive_smoothing : ℚ
  adaptive_acceleration : ℚ
  smoothing_factor : ℚ
  prev_x : ℚ
  prev_y : ℚ
  velocity_x : ℚ
  velocity_y : ℚ
  position_history : List (ℚ × ℚ)
  movement_history : List (ℚ × ℚ)
  is_holding : Bool
  last_click_time : ℚ
  hold_start_time : ℚ
  last_scroll_time : ℚ
  fist_count : ℕ
  deriving DecidableEq, Repr

/-- self.click_cooldown = 0.15 -/
def click_cooldown : ℚ := 3 / 20

/-- self.hold_threshold = 0.3 -/
def hold_threshold : ℚ := 3 / 10

/-- self.scroll_cooldown = 0.1 -/
def scroll_cooldown : ℚ := 1 / 10

/-- self.velocity_smoothing = 0.15 (never mutated). -/
def velocity_smoothing : ℚ := 3 / 20

/-- The state built by CursorController.__init__. -/
def initState : CursorState where
  cursor_enabled := true
  inverse_cursor := false
  adaptive_sensitivity := 1
  adaptive_smoothing := 1 / 5
  adaptive_acceleration := 6 / 5
  smoothing_factor := 1 / 5
  prev_x := 0
  prev_y := 0
  velocity_x := 0
  velocity_y := 0
  position_history := []
  movement_history := []
  is_holding := false
  last_click_time := 0
  hold_start_time := 0
  last_scroll_time := 0
  fist_count := 0

/-- CursorController.click (lines 217-225). -/
def CursorState.click (st : CursorState) (now : ℚ) : CursorState × List Event :=
  if now - st.last_click_time > click_cooldown then
    ({ st with last_click_time := now }, [Event.click])
  else
    (st, [])

/-- CursorController.right_click (lines 227-235). -/
def CursorState.right_click (st : CursorState) (now : ℚ) : CursorState × List Event :=
  if now - st.last_click_time > click_cooldown then
    ({ st with last_click_time := now }, [Event.rightClick])
  else
    (st, [])

/-- CursorController.double_click (lines 250-258). -/
def CursorState.double_click (st : CursorState) (now : ℚ) : CursorState × List Event :=
  if now - st.last_click_time > click_cooldown then
    ({ st with last_click_time := now }, [Event.doubleClick])
  else
    (st, [])

/-- CursorController.scroll (lines 237-248).  Note that last_scroll_time is
updated inside the cooldown branch even for an unknown direction string. -/
def CursorState.scroll (st : CursorState) (direction : String) (now : ℚ) :
    CursorState × List Event :=
  if now - st.last_scroll_time > scroll_cooldown then
    ({ st with last_scroll_time := now },
      if direction = "up" then [Event.scrollUp]
      else if direction = "down" then [Event.scrollDown]
      else [])
  else
    (st, [])

/-- CursorController.handle_pinch_gesture (lines 183-215).  In the inactive
branch the source always ends with self.hold_start_time = 0. -/
def CursorState.handle_pinch_gesture (st : CursorState) (is_pinch_active : Bool)
    (now : ℚ) : CursorState × List Event :=
  if is_pinch_active then
    if st.is_holding then
      (st, [])
    else
      if st.hold_start_time = 0 then
        ({ st with hold_start_time := now }, [])
      else if now - st.hold_start_time > hold_threshold then
        ({ st with is_holding := true }, [Event.mouseDown])
      else
        (st, [])
  else
    if st.is_holding then
      ({ st with is_holding := false, hold_start_time := 0 }, [Event.mouseUp])
    else if st.hold_start_time > 0 then
      if now - st.hold_start_time < hold_threshold ∧
          now - st.last_click_time > click_cooldown then
        ({ st with last_click_time := now, hold_start_time := 0 }, [Event.click])
      else
        ({ st with hold_start_time := 0 }, [])
    else
      ({ st with hold_start_time := 0 }, [])

/-- Feed a sampled (time, pinch-active) trace to handle_pinch_gesture,
collecting the emitted events in order. -/
def runPinch (st : CursorState) : List (ℚ × Bool) → CursorState × List Event
  | [] => (st, [])
  | (t, a) :: rest =>
      ((runPinch (st.handle_pinch_gesture a t).1 rest).1,
        (st.handle_pinch_gesture a t).2 ++ (runPinch (st.handle_pinch_gesture a t).1 rest).2)

/-- CursorController.set_adaptive_settings (lines 79-85). -/
def CursorState.set_adaptive_settings (st : CursorState)
    (sensitivity smoothing acceleration : ℚ) : CursorState :=
  let s := max (3 / 10) (min 2 sensitivity)
  let sm := max (1 / 10) (min (4 / 5) smoothing)
  let a := max 1 (min 3 acceleration)
  { st with
    adaptive_sensitivity := s
    adaptive_smoothing := sm
    adaptive_acceleration := a
    smoothing_factor := sm }

/-- CursorController.reset_state (lines 274-287). -/
def CursorState.reset_state (st : CursorState) : CursorState × List Event :=
  ({ st with
      is_holding := false
      hold_start_time := 0
      position_history := []
      movement_history := []
      velocity_x := 0
      velocity_y := 0
      prev_x := 0
      prev_y := 0
      fist_count := 0 },
    if st.is_holding then [Event.mouseUp] else [])

/-- Python int(): truncation toward zero. -/
def pyInt (q : ℚ) : ℤ := if 0 ≤ q then ⌊q⌋ else ⌈q⌉

/-- np.clip(x, lo, hi). -/
def clip (x lo hi : ℚ) : ℚ := max lo (min hi x)

/-- np.linspace(a, b, n): n evenly spaced points from a to b inclusive. -/
def linspace (a b : ℚ) (n : ℕ) : List ℚ :=
  (List.range n).map (fun i => a + (b - a) * i / (n - 1))

/-- Append to a deque with maxlen 3 (position_history): the oldest entry is
dropped once the length exceeds 3. -/
def pushHistory (h : List (ℚ × ℚ)) (p : ℚ × ℚ) : List (ℚ × ℚ) :=
  let h' := h ++ [p]
  if 3 < h'.length then h'.tail else h'

/-- CursorController.apply_jitter_filter (lines 91-104): weighted average of
the recent positions with linspace(0.3, 1.0, n) weights normalized to sum 1. -/
def CursorState.apply_jitter_filter (st : CursorState) (x y : ℚ) :
    CursorState × ℚ × ℚ :=
  let hist := pushHistory st.position_history (x, y)
  let st' := { st with position_history := hist }
  if hist.length < 2 then
    (st', x, y)
  else
    let ws := linspace (3 / 10) 1 hist.length
    let total := ws.sum
    let wsn := ws.map (fun w => w / total)
    let fx := ((hist.zip wsn).map (fun pw => pw.1.1 * pw.2)).sum
    let fy := ((hist.zip wsn).map (fun pw => pw.1.2 * pw.2)).sum
    (st', fx, fy)

/-- Lines 113-129 of map_coordinates: margin normalization, optional
inversion, and scaling by screen size and sensitivity. -/
def CursorState.targetPoint (st : CursorState) (hand_x hand_y frame_width frame_height : ℚ)
    (screen_width screen_height : ℤ) : ℚ × ℚ :=
  let effective_width := frame_width - 2 * 40
  let effective_height := frame_height - 2 * 40
  let norm_x := clip ((hand_x - 40) / effective_width) 0 1
  let norm_y := clip ((hand_y - 40) / effective_height) 0 1
  let norm_x := if st.inverse_cursor then 1 - norm_x else norm_x
  let norm_y := if st.inverse_cursor then 1 - norm_y else norm_y
  (norm_x * screen_width * st.adaptive_sensitivity,
    norm_y * screen_height * st.adaptive_sensitivity)

/-- CursorController.map_coordinates (lines 106-168).  The screen size
(pyautogui.size()) is passed as two integer parameters.  A frame whose
margin-reduced dimension is zero makes the Python source divide by zero;
that error is modelled as none. -/
def CursorState.map_coordinates (st : CursorState)
    (hand_x hand_y frame_width frame_height : ℚ)
    (screen_width screen_height : ℤ) : Option (CursorState × ℤ × ℤ) :=
  if st.cursor_enabled = false then
    some (st, pyInt st.prev_x, pyInt st.prev_y)
  else if frame_width - 2 * 40 = 0 ∨ frame_height - 2 * 40 = 0 then
    none
  else
    let tp := st.targetPoint hand_x hand_y frame_width frame_height
      screen_width screen_height
    let j := st.apply_jitter_filter tp.1 tp.2
    let st1 := j.1
    let filtered_x := j.2.1
    let filtered_y := j.2.2
    if st1.prev_x = 0 ∧ st1.prev_y = 0 then
      some ({ st1 with prev_x := filtered_x, prev_y := filtered_y },
        pyInt filtered_x, pyInt filtered_y)
    else
      let velocity_x := filtered_x - st1.prev_x
      let velocity_y := filtered_y - st1.prev_y
      let svx := st1.velocity_x * velocity_smoothing +
        velocity_x * (1 - velocity_smoothing)
      let svy := st1.velocity_y * velocity_smoothing +
        velocity_y * (1 - velocity_smoothing)
      -- velocity_magnitude > 15, compared on squares
      let accel := svx ^ 2 + svy ^ 2 > 15 ^ 2
      let svx := if accel then svx * st1.adaptive_acceleration else svx
      let svy := if accel then svy * st1.adaptive_acceleration else svy
      let final_x := max 0 (min ((screen_width : ℚ) - 1) (st1.prev_x + svx))
      let final_y := max 0 (min ((screen_height : ℚ) - 1) (st1.prev_y + svy))
      some ({ st1 with
          velocity_x := svx
          velocity_y := svy
          prev_x := final_x
          prev_y := final_y },
        pyInt final_x, pyInt final_y)

/-!  Hand tracker embedding (hand_tracker.py).  A landmark frame is a list
of (x, y) pixel positions indexed by landmark id. -/

/-- self.tip_ids. -/
def tip_ids : List ℕ := [4, 8, 12, 16, 20]

/-- self.pip_ids. -/
def pip_ids : List ℕ := [3, 6, 10, 14, 18]

/-- self.pinch_threshold = 40. -/
def pinch_threshold : ℤ := 40

/-- self.pinch_stability_count = 3. -/
def pinch_stability_count : ℕ := 3

/-- Squared Euclidean distance between two landmark points (the source
compares math.sqrt values; both sides nonnegative, so comparing squares
is equivalent). -/
def distSq (p q : ℤ × ℤ) : ℤ := (p.1 - q.1) ^ 2 + (p.2 - q.2) ^ 2

/-- 'index' or 'pinky': the cursor control finger. -/
inductive Finger where
  | index
  | pinky
  deriving DecidableEq, Repr

/-- The mutable fields of HandTracker used by gesture detection. -/
structure TrackerState where
  cursor_finger : Finger
  pinch_history : List Bool
  deriving DecidableEq, Repr

/-- HandTracker.is_finger_up (lines 135-166). -/
def is_finger_up (landmarks : List (ℤ × ℤ)) (finger_idx : ℕ) : Bool :=
  if finger_idx = 0 then
    if landmarks.length ≤ 4 then false
    else
      let thumb_tip := landmarks.getD 4 (0, 0)
      let thumb_ip := landmarks.getD 3 (0, 0)
      let wrist := landmarks.getD 0 (0, 0)
      decide (distSq thumb_ip wrist < distSq thumb_tip wrist)
  else
    if 5 ≤ finger_idx then false
    else
      let tip_id := tip_ids.getD finger_idx 0
      let pip_id := pip_ids.getD finger_idx 0
      if landmarks.length ≤ tip_id ∨ landmarks.length ≤ pip_id then false
      else
        decide ((landmarks.getD tip_id (0, 0)).2 < (landmarks.getD pip_id (0, 0)).2)

/-- The raw per-frame pinch sample: thumb-tip-to-index-tip distance below
the threshold (landmarks 4 and 8, from get_finger_positions). -/
def rawPinchSample (landmarks : List (ℤ × ℤ)) : Bool :=
  decide (distSq (landmarks.getD 4 (0, 0)) (landmarks.getD 8 (0, 0)) <
    pinch_threshold ^ 2)

/-- self.pinch_history.append(..) followed by pop(0) when the length
exceeds pinch_stability_count (lines 231-233). -/
def pushPinchHistory (h : List Bool) (b : Bool) : List Bool :=
  let h' := h ++ [b]
  if pinch_stability_count < h'.length then h'.tail else h'

/-- Lines 236-237: stable pinch requires a full window with at least
pinch_stability_count - 1 true entries. -/
def stable_pinch (h : List Bool) : Bool :=
  decide (pinch_stability_count ≤ h.length ∧
    pinch_stability_count - 1 ≤ h.count true)

/-- HandTracker.detect_pinch_gesture (lines 216-245), returning the stable
flag together with the updated pinch history. -/
def detect_pinch_gesture (hist : List Bool) (landmarks : List (ℤ × ℤ)) :
    Bool × List Bool :=
  if landmarks.length < 21 then
    (false, hist)
  else
    let hist' := pushPinchHistory hist (rawPinchSample landmarks)
    (stable_pinch hist', hist')

/-- cursor_finger_idx (line 187): 1 for index, 4 for pinky. -/
def cursorIdx (st : TrackerState) : ℕ :=
  if st.cursor_finger = Finger.index then 1 else 4

/-- fingers_up (line 175). -/
def fingersUp (landmarks : List (ℤ × ℤ)) : List Bool :=
  (List.range 5).map (is_finger_up landmarks)

/-- The point condition (lines 189-192): the active cursor finger is up and
no other non-thumb finger is up. -/
def pointCond (st : TrackerState) (landmarks : List (ℤ × ℤ)) : Bool :=
  (fingersUp landmarks).getD (cursorIdx st) false &&
    !(((List.range 5).filter (fun i => i ≠ cursorIdx st ∧ i ≠ 0)).any
      (fun i => (fingersUp landmarks).getD i false))

/-- The peace condition (line 199): index and middle up, ring and pinky down. -/
def peaceCond (landmarks : List (ℤ × ℤ)) : Bool :=
  (fingersUp landmarks).getD 1 false && (fingersUp landmarks).getD 2 false &&
    !(fingersUp landmarks).getD 3 false && !(fingersUp landmarks).getD 4 false

/-- The fist condition (line 203): at most one finger up. -/
def fistCond (landmarks : List (ℤ × ℤ)) : Bool :=
  (fingersUp landmarks).count true ≤ 1

/-- The open-hand condition (line 207): at least four fingers up. -/
def openHandCond (landmarks : List (ℤ × ℤ)) : Bool :=
  4 ≤ (fingersUp landmarks).count true

/-- HandTracker.detect_gestures (lines 168-214), returning the label and
the updated tracker state (pinch history, cursor finger side effects). -/
def detect_gestures (st : TrackerState) (landmarks : List (ℤ × ℤ)) :
    String × TrackerState :=
  if landmarks.length < 21 then
    ("no_hand", st)
  else
    let pd := detect_pinch_gesture st.pinch_history landmarks
    let st1 : TrackerState := { st with pinch_history := pd.2 }
    if pd.1 then
      ("pinch", { st1 with cursor_finger := Finger.pinky })
    else if pointCond st1 landmarks then
      ("point", { st1 with cursor_finger := Finger.index })
    else if peaceCond landmarks then
      ("peace", st1)
    else if fistCond landmarks then
      ("fist", st1)
    else if openHandCond landmarks then
      ("open_hand", st1)
    else
      ("other", st1)

/-!  Optimizer embedding (adaptive_game.py, AdaptiveSettingsOptimizer). -/

/-- A settings point on the 3-dimensional lattice. -/
structure Settings where
  sensitivity : ℚ
  smoothing : ℚ
  acceleration : ℚ
  deriving DecidableEq, Repr

/-- A discretized dedup key: each parameter rounded to 2 decimals. -/
abbrev SettingsKey := ℚ × ℚ × ℚ

/-- round(x, 2): rounding to 2 decimal places. -/
def round2 (q : ℚ) : ℚ := (round (q * 100) : ℤ) / 100

/-- AdaptiveSettingsOptimizer.settings_to_key (lines 82-86). -/
def settings_to_key (s : Settings) : SettingsKey :=
  (round2 s.sensitivity, round2 s.smoothing, round2 s.acceleration)

/-- AdaptiveSettingsOptimizer.generate_neighbors (lines 52-70): for each
parameter in order, one step up then one step down, clamped to the
parameter bounds. -/
def generate_neighbors (s : Settings) : List Settings :=
  [ { s with sensitivity := min (s.sensitivity + 1 / 10) 2 },
    { s with sensitivity := max (s.sensitivity - 1 / 10) (3 / 10) },
    { s with smoothing := min (s.smoothing + 1 / 20) (4 / 5) },
    { s with smoothing := max (s.smoothing - 1 / 20) (1 / 10) },
    { s with acceleration := min (s.acceleration + 1 / 10) 3 },
    { s with acceleration := max (s.acceleration - 1 / 10) 1 } ]

/-- AdaptiveSettingsOptimizer.interpret_feedback (lines 88-99). -/
def interpret_feedback (feedback : String) : ℚ :=
  if feedback = "much_faster" then 3 / 2
  else if feedback = "faster" then 6 / 5
  else if feedback = "perfect" then 2
  else if feedback = "slower" then 4 / 5
  else if feedback = "much_slower" then 3 / 5
  else if feedback = "sharper" then 13 / 10
  else if feedback = "smoother" then 11 / 10
  else 1

/-- The mutable fields of AdaptiveSettingsOptimizer. -/
structure OptimizerState where
  best_settings : Settings
  best_score : ℚ
  search_queue : List (Settings × ℚ)
  visited_settings : List SettingsKey
  deriving DecidableEq, Repr

/-- AdaptiveSettingsOptimizer.__init__. -/
def initOptimizer : OptimizerState where
  best_settings := { sensitivity := 1, smoothing := 3 / 10, acceleration := 3 / 2 }
  best_score := 0
  search_queue := []
  visited_settings := []

/-- The neighbor loop of bfs_optimize (lines 35-39): enqueue each neighbor
whose key is unseen, marking it visited at enqueue time. -/
def enqueue_neighbors (score : ℚ) : OptimizerState → List Settings → OptimizerState
  | st, [] => st
  | st, n :: rest =>
      if settings_to_key n ∈ st.visited_settings then
        enqueue_neighbors score st rest
      else
        enqueue_neighbors score
          { st with
            search_queue := st.search_queue ++ [(n, score)]
            visited_settings := st.visited_settings ++ [settings_to_key n] }
          rest

/-- AdaptiveSettingsOptimizer.get_next_settings (lines 101-106). -/
def get_next_settings (st : OptimizerState) : OptimizerState × Settings :=
  match st.search_queue with
  | [] => (st, st.best_settings)
  | (s, _) :: rest => ({ st with search_queue := rest }, s)

/-- AdaptiveSettingsOptimizer.bfs_optimize (lines 28-50). -/
def bfs_optimize (st : OptimizerState) (current_score : ℚ) (user_feedback : String) :
    OptimizerState × Settings :=
  let current_settings := st.best_settings
  let st1 := enqueue_neighbors current_score st (generate_neighbors current_settings)
  let feedback_weight := interpret_feedback user_feedback
  let adjusted_score := current_score * feedback_weight
  let st2 :=
    if adjusted_score > st1.best_score then
      { st1 with best_score := adjusted_score, best_settings := current_settings }
    else
      st1
  get_next_settings st2

/-- The frontier/visited invariant of the optimizer: every queued entry has
its discretized key in the visited set, and no two queued entries share a
discretized key. -/
def QueueInv (st : OptimizerState) : Prop :=
  (∀ p ∈ st.search_queue, settings_to_key p.1 ∈ st.visited_settings) ∧
  st.search_queue.Pairwise (fun p q => settings_to_key p.1 ≠ settings_to_key q.1)

/-- A concrete 21-landmark frame: index finger extended (tip above its PIP
joint), all other fingers folded. -/
def pointFrame : List (ℤ × ℤ) :=
  [(0, 10), (0, 10), (0, 10), (0, 10), (0, 10),
   (0, 10), (0, 10), (0, 10), (0, 0), (0, 10),
   (0, 10), (0, 10), (0, 10), (0, 10), (0, 10),
   (0, 10), (0, 10), (0, 10), (0, 10), (0, 10),
   (0, 10)]

/-!  Helper lemmas. -/

/-- Clamping with max and min agrees with the nearest-bound description. -/
theorem clamp_max_min (lo hi x : ℚ) (h : lo ≤ hi) :
    max lo (min hi x) = if x < lo then lo else if hi < x then hi else x := by
  rcases lt_or_le x lo with h1 | h1
  · rw [if_pos h1, min_eq_right (le_of_lt (lt_of_lt_of_le h1 h)), max_eq_left (le_of_lt h1)]
  · rw [if_neg (not_lt.mpr h1)]
    rcases lt_or_le hi x with h2 | h2
    · rw [if_pos h2, min_eq_left (le_of_lt h2), max_eq_right h]
    · rw [if_neg (not_lt.mpr h2), min_eq_right h2, max_eq_right h1]

/-!  Claim theorems. -/

/-- Claim C7: after set_adaptive_settings the stored sensitivity lies in
[0.3, 2.0], the stored smoothing in [0.1, 0.8] and the stored acceleration
in [1.0, 3.0]; out-of-range requests are clamped to the nearest bound and
never rejected; sensitivity requests of -5 and 99 resolve to 0.3 and 2.0. -/
theorem C7_settings_clamped :
    ∀ (st : CursorState) (s sm a : ℚ),
      (3 / 10 ≤ (st.set_adaptive_settings s sm a).adaptive_sensitivity ∧
        (st.set_adaptive_settings s sm a).adaptive_sensitivity ≤ 2) ∧
      (1 / 10 ≤ (st.set_adaptive_settings s sm a).adaptive_smoothing ∧
        (st.set_adaptive_settings s sm a).adaptive_smoothing ≤ 4 / 5) ∧
      (1 ≤ (st.set_adaptive_settings s sm a).adaptive_acceleration ∧
        (st.set_adaptive_settings s sm a).adaptive_acceleration ≤ 3) ∧
      (st.set_adaptive_settings s sm a).adaptive_sensitivity =
        (if s < 3 / 10 then 3 / 10 else if 2 < s then 2 else s) ∧
      (st.set_adaptive_settings s sm a).adaptive_smoothing =
        (if sm < 1 / 10 then 1 / 10 else if 4 / 5 < sm then 4 / 5 else sm) ∧
      (st.set_adaptive_settings s sm a).adaptive_acceleration =
        (if a < 1 then 1 else if 3 < a then 3 else a) ∧
      (st.set_adaptive_settings (-5) sm a).adaptive_sensitivity = 3 / 10 ∧
      (st.set_adaptive_settings 99 sm a).adaptive_sensitivity = 2 := by
  intro st s sm a
  refine ⟨⟨le_max_left _ _, max_le (by norm_num) (min_le_left _ _)⟩,
    ⟨le_max_left _ _, max_le (by norm_num) (min_le_left _ _)⟩,
    ⟨le_max_left _ _, max_le (by norm_num) (min_le_left _ _)⟩,
    clamp_max_min _ _ _ (by norm_num), clamp_max_min _ _ _ (by norm_num),
    clamp_max_min _ _ _ (by norm_num), ?_, ?_⟩
  · show max (3 / 10) (min 2 (-5 : ℚ)) = 3 / 10
    norm_num
  · show max (3 / 10) (min 2 (99 : ℚ)) = 2
    norm_num

/-- Claim C8: reset_state is idempotent, always leaves is_holding false and
hold_start_time 0, and issues a mouseUp exactly when the controller was
holding. -/
theorem C8_reset_idempotent :
    ∀ st : CursorState,
      ((st.reset_state).1).reset_state = ((st.reset_state).1, ([] : List Event)) ∧
      ((st.reset_state).1).is_holding = false ∧
      ((st.reset_state).1).hold_start_time = 0 ∧
      (st.reset_state).2 = (if st.is_holding then [Event.mouseUp] else []) := by
  intro st
  exact ⟨rfl, rfl, rfl, rfl⟩

/-- Claim C6: the pinch debounce window is a bounded FIFO of size 3 (append,
evict the oldest once length exceeds 3); stable pinch holds iff the window
has 3 entries with at least 2 true; detect_pinch_gesture pushes exactly the
raw distance-below-threshold sample; [true,true,false] is stable and
[false,false,true] is not. -/
theorem C6_pinch_window :
    (∀ (h : List Bool) (b : Bool), h.length < 3 → pushPinchHistory h b = h ++ [b]) ∧
    (∀ (h : List Bool) (b : Bool), h.length = 3 → pushPinchHistory h b = h.tail ++ [b]) ∧
    (∀ (h : List Bool) (b : Bool), h.length ≤ 3 → (pushPinchHistory h b).length ≤ 3) ∧
    (∀ h : List Bool, h.length ≤ 3 →
      (stable_pinch h = true ↔ h.length = 3 ∧ 2 ≤ h.count true)) ∧
    (∀ (hist : List Bool) (lm : List (ℤ × ℤ)), 21 ≤ lm.length →
      (detect_pinch_gesture hist lm).2 = pushPinchHistory hist (rawPinchSample lm)) ∧
    stable_pinch (pushPinchHistory (pushPinchHistory (pushPinchHistory [] true) true) false)
      = true ∧
    stable_pinch (pushPinchHistory (pushPinchHistory (pushPinchHistory [] false) false) true)
      = false := by
  refine ⟨?_, ?_, ?_, ?_, ?_, by decide, by decide⟩
  · intro h b hlen
    have hc : ¬ pinch_stability_count < (h ++ [b]).length := by
      simp only [pinch_stability_count, List.length_append, List.length_singleton]
      omega
    simp only [pushPinchHistory]
    rw [if_neg hc]
  · intro h b hlen
    cases h with
    | nil => simp at hlen
    | cons x t =>
      have hc : pinch_stability_count < ((x :: t) ++ [b]).length := by
        simp only [pinch_stability_count, List.length_append, List.length_cons,
          List.length_singleton]
        simp only [List.length_cons] at hlen
        omega
      simp only [pushPinchHistory]
      rw [if_pos hc]
      simp
  · intro h b hlen
    by_cases hc : pinch_stability_count < (h ++ [b]).length
    · simp only [pushPinchHistory, if_pos hc]
      simp [pinch_stability_count] at hc ⊢
      omega
    · simp only [pushPinchHistory, if_neg hc]
      simp [pinch_stability_count] at hc ⊢
      omega
  · intro h hlen
    simp only [stable_pinch, pinch_stability_count, decide_eq_true_eq]
    constructor
    · rintro ⟨h1, h2⟩
      exact ⟨le_antisymm hlen h1, h2⟩
    · rintro ⟨h1, h2⟩
      exact ⟨le_of_eq h1.symm, h2⟩
  · intro hist lm hlm
    simp [detect_pinch_gesture, Nat.not_lt.mpr hlm]

/-- Witness for C6 at a concrete full window. -/
theorem C6_pinch_window_witness :
    pushPinchHistory [true, true, false] false = [true, false, false] :=
  C6_pinch_window.2.1 [true, true, false] false (by decide)

/-- Claim C10: with the cursor enabled, the margin normalization divides by
frame_width - 80 and frame_height - 80 with no guard: any call with both
dimensions above 80 returns a coordinate, while frame_width = 80 or
frame_height = 80 reaches the division by zero. -/
theorem C10_margin_division (st : CursorState) (hx hy fw fh : ℚ) (sw sh : ℤ)
    (hen : st.cursor_enabled = true) :
    (80 < fw → 80 < fh →
      (st.map_coordinates hx hy fw fh sw sh).isSome = true) ∧
    (fw = 80 → st.map_coordinates hx hy fw fh sw sh = none) ∧
    (fh = 80 → st.map_coordinates hx hy fw fh sw sh = none) := by
  refine ⟨?_, ?_, ?_⟩
  · intro h1 h2
    have hz : ¬ (fw - 2 * 40 = 0 ∨ fh - 2 * 40 = 0) := by
      push_neg
      constructor <;> intro h <;> linarith
    simp only [CursorState.map_coordinates, hen]
    simp only [if_neg (by simp : ¬ (true = false)), if_neg hz]
    split <;> simp
  · intro h
    subst h
    have hz : (80 : ℚ) - 2 * 40 = 0 := by norm_num
    unfold CursorState.map_coordinates
    rw [hen, if_neg (by simp : ¬ (true = false)), if_pos (Or.inl hz)]
  · intro h
    subst h
    have hz : (80 : ℚ) - 2 * 40 = 0 := by norm_num
    unfold CursorState.map_coordinates
    rw [hen, if_neg (by simp : ¬ (true = false)), if_pos (Or.inr hz)]

/-- Witness for C10 at a concrete frame size. -/
theorem C10_margin_division_witness :
    (initState.map_coordinates 100 100 200 200 1920 1080).isSome = true :=
  (C10_margin_division initState 100 100 200 200 1920 1080 rfl).1
    (by norm_num) (by norm_num)

/-- Counterexample to claim C1: the three discrete click actions do not have
independent per-action cooldowns.  From the initial state, a click fires at
time 1; a right-click requested at time 1.1 is dropped although no
right-click was ever fired.  Moreover a click exactly 0.15s after the last
click is dropped, not fired. -/
theorem C1_counterexample :
    (CursorState.click initState 1).2 = [Event.click] ∧
    Event.rightClick ∉ (CursorState.click initState 1).2 ∧
    (CursorState.right_click ((CursorState.click initState 1).1) (11 / 10)).2 = [] ∧
    (CursorState.click { initState with last_click_time := 1 } (23 / 20)).2 = [] := by
  have hc : (1 : ℚ) - initState.last_click_time > click_cooldown := by
    show (1 : ℚ) - 0 > 3 / 20
    norm_num
  have h1 : CursorState.click initState 1 =
      ({ initState with last_click_time := 1 }, [Event.click]) := by
    unfold CursorState.click
    rw [if_pos hc]
  have hc2 : ¬ ((11 : ℚ) / 10 -
      ({ initState with last_click_time := 1 } : CursorState).last_click_time >
        click_cooldown) := by
    show ¬ ((11 : ℚ) / 10 - 1 > 3 / 20)
    norm_num
  have hc3 : ¬ ((23 : ℚ) / 20 -
      ({ initState with last_click_time := 1 } : CursorState).last_click_time >
        click_cooldown) := by
    show ¬ ((23 : ℚ) / 20 - 1 > 3 / 20)
    norm_num
  refine ⟨by rw [h1], by rw [h1]; decide, ?_, ?_⟩
  · rw [h1]
    unfold CursorState.right_click
    rw [if_neg hc2]
  · unfold CursorState.click
    rw [if_neg hc3]

/-- Claim C1 (amended): click, right-click and double-click are gated by one
shared cooldown timestamp: a request of any of these three kinds fires iff
more than 0.15s has elapsed since the last successfully fired action of any
of the three kinds (each fired action writes the shared timestamp, so an
action within 0.15s of a fired action of another kind is silently dropped);
scroll is gated only by its own 0.1s cooldown timestamp, which the click
actions never touch. -/
theorem C1_shared_cooldown (st : CursorState) (t t' : ℚ) :
    ((st.click t).2 ≠ [] ↔ click_cooldown < t - st.last_click_time) ∧
    ((st.right_click t).2 ≠ [] ↔ click_cooldown < t - st.last_click_time) ∧
    ((st.double_click t).2 ≠ [] ↔ click_cooldown < t - st.last_click_time) ∧
    ((st.click t).2 ≠ [] → (st.click t).1.last_click_time = t) ∧
    ((st.right_click t).2 ≠ [] → (st.right_click t).1.last_click_time = t) ∧
    ((st.double_click t).2 ≠ [] → (st.double_click t).1.last_click_time = t) ∧
    ((st.right_click t).2 ≠ [] → t' - t ≤ click_cooldown →
      ((st.right_click t).1.double_click t').2 = []) ∧
    ((st.scroll "up" t).2 ≠ [] ↔ scroll_cooldown < t - st.last_scroll_time) ∧
    (st.scroll "up" t).1.last_click_time = st.last_click_time ∧
    (st.click t).1.last_scroll_time = st.last_scroll_time := by
  refine ⟨?_, ?_, ?_, ?_, ?_, ?_, ?_, ?_, ?_, ?_⟩
  · unfold CursorState.click
    split <;> simp_all
  · unfold CursorState.right_click
    split <;> simp_all
  · unfold CursorState.double_click
    split <;> simp_all
  · unfold CursorState.click
    split <;> simp_all
  · unfold CursorState.right_click
    split <;> simp_all
  · unfold CursorState.double_click
    split <;> simp_all
  · intro hfired hlt
    unfold CursorState.right_click at hfired ⊢
    by_cases hc : t - st.last_click_time > click_cooldown
    · rw [if_pos hc]
      unfold CursorState.double_click
      rw [if_neg (by simp; linarith)]
    · rw [if_neg hc] at hfired
      simp at hfired
  · unfold CursorState.scroll
    split <;> simp_all
  · unfold CursorState.scroll
    split <;> simp_all
  · unfold CursorState.click
    split <;> simp_all

/-- Witness for C1 (amended): a double-click 0.1s after a fired right-click
is dropped. -/
theorem C1_shared_cooldown_witness :
    ((initState.right_click 1).1.double_click (11 / 10)).2 = [] :=
  (C1_shared_cooldown initState 1 (11 / 10)).2.2.2.2.2.2.1
    (by
      have hc : (1 : ℚ) - initState.last_click_time > click_cooldown := by
        show (1 : ℚ) - 0 > 3 / 20
        norm_num
      unfold CursorState.right_click
      rw [if_pos hc]
      simp)
    (by
      show (11 : ℚ) / 10 - 1 ≤ 3 / 20
      norm_num)

/-- enqueue_neighbors never changes best_score. -/
theorem enqueue_neighbors_best_score (score : ℚ) :
    ∀ (l : List Settings) (st : OptimizerState),
      (enqueue_neighbors score st l).best_score = st.best_score := by
  intro l
  induction l with
  | nil => intro st; rfl
  | cons n rest ih =>
    intro st
    unfold enqueue_neighbors
    split
    · exact ih st
    · exact ih _

/-- enqueue_neighbors never changes best_settings. -/
theorem enqueue_neighbors_best_settings (score : ℚ) :
    ∀ (l : List Settings) (st : OptimizerState),
      (enqueue_neighbors score st l).best_settings = st.best_settings := by
  intro l
  induction l with
  | nil => intro st; rfl
  | cons n rest ih =>
    intro st
    unfold enqueue_neighbors
    split
    · exact ih st
    · exact ih _

/-- get_next_settings never changes best_score. -/
theorem get_next_settings_best_score (st : OptimizerState) :
    ((get_next_settings st).1).best_score = st.best_score := by
  rcases hq : st.search_queue with _ | ⟨⟨s, sc⟩, rest⟩ <;>
    simp [get_next_settings, hq]

/-- get_next_settings never changes the visited set. -/
theorem get_next_settings_visited (st : OptimizerState) :
    ((get_next_settings st).1).visited_settings = st.visited_settings := by
  rcases hq : st.search_queue with _ | ⟨⟨s, sc⟩, rest⟩ <;>
    simp [get_next_settings, hq]

/-- Claim C4: the feedback table maps the seven known labels to their fixed
weights and every other label to 1; the adjusted score is raw times weight;
best_score is updated to the adjusted score exactly when it exceeds the old
best; raw 80 with perfect promotes 160 over best 0, raw 10 with much_slower
gives 6 and does not promote over best 50. -/
theorem C4_feedback_weights (s : String)
    (hs : s ∉ ["much_faster", "faster", "perfect", "slower", "much_slower",
      "sharper", "smoother"]) :
    interpret_feedback "much_faster" = 3 / 2 ∧
    interpret_feedback "faster" = 6 / 5 ∧
    interpret_feedback "perfect" = 2 ∧
    interpret_feedback "slower" = 4 / 5 ∧
    interpret_feedback "much_slower" = 3 / 5 ∧
    interpret_feedback "sharper" = 13 / 10 ∧
    interpret_feedback "smoother" = 11 / 10 ∧
    interpret_feedback s = 1 ∧
    (∀ (st : OptimizerState) (score : ℚ) (fb : String),
      ((bfs_optimize st score fb).1).best_score =
        if score * interpret_feedback fb > st.best_score
        then score * interpret_feedback fb else st.best_score) ∧
    ((bfs_optimize initOptimizer 80 "perfect").1).best_score = 160 ∧
    ((bfs_optimize { initOptimizer with best_score := 50 } 10 "much_slower").1).best_score
      = 50 := by
  have hscore : ∀ (st : OptimizerState) (score : ℚ) (fb : String),
      ((bfs_optimize st score fb).1).best_score =
        if score * interpret_feedback fb > st.best_score
        then score * interpret_feedback fb else st.best_score := by
    intro st score fb
    unfold bfs_optimize
    rw [get_next_settings_best_score]
    rw [enqueue_neighbors_best_score]
    split
    · rfl
    · exact enqueue_neighbors_best_score score _ st
  have htable : interpret_feedback s = 1 := by
    simp only [List.mem_cons, List.not_mem_nil, or_false, not_or] at hs
    obtain ⟨h1, h2, h3, h4, h5, h6, h7⟩ := hs
    simp [interpret_feedback, h1, h2, h3, h4, h5, h6, h7]
  refine ⟨rfl, rfl, rfl, rfl, rfl, rfl, rfl, htable, hscore, ?_, ?_⟩
  · rw [hscore]
    have h1 : (80 : ℚ) * interpret_feedback "perfect" = 160 := by
      show (80 : ℚ) * 2 = 160
      norm_num
    rw [h1]
    rw [if_pos ?_]
    show (160 : ℚ) > 0
    norm_num
  · rw [hscore]
    have h1 : (10 : ℚ) * interpret_feedback "much_slower" = 6 := by
      show (10 : ℚ) * (3 / 5) = 6
      norm_num
    rw [h1]
    rw [if_neg ?_]
    show ¬ ((6 : ℚ) > 50)
    norm_num

/-- Witness for C4 at a concrete unrecognized label. -/
theorem C4_feedback_weights_witness :
    interpret_feedback "hello" = 1 :=
  (C4_feedback_weights "hello" (by decide)).2.2.2.2.2.2.2.1

/-- get_next_settings never changes best_settings. -/
theorem get_next_settings_best_settings (st : OptimizerState) :
    ((get_next_settings st).1).best_settings = st.best_settings := by
  rcases hq : st.search_queue with _ | ⟨⟨s, sc⟩, rest⟩ <;>
    simp [get_next_settings, hq]

/-- enqueue_neighbors only adds to the visited set. -/
theorem enqueue_neighbors_visited_mono (score : ℚ) :
    ∀ (l : List Settings) (st : OptimizerState) (k : SettingsKey),
      k ∈ st.visited_settings → k ∈ (enqueue_neighbors score st l).visited_settings := by
  intro l
  induction l with
  | nil => intro st k hk; exact hk
  | cons n rest ih =>
    intro st k hk
    unfold enqueue_neighbors
    split
    · exact ih st k hk
    · exact ih _ k (List.mem_append_left _ hk)

/-- enqueue_neighbors preserves the frontier/visited invariant. -/
theorem enqueue_neighbors_inv (score : ℚ) :
    ∀ (l : List Settings) (st : OptimizerState),
      QueueInv st → QueueInv (enqueue_neighbors score st l) := by
  intro l
  induction l with
  | nil => intro st h; exact h
  | cons n rest ih =>
    intro st h
    unfold enqueue_neighbors
    split
    · exact ih st h
    · rename_i hnew
      apply ih
      constructor
      · intro p hp
        rcases List.mem_append.mp hp with hp1 | hp2
        · exact List.mem_append_left _ (h.1 p hp1)
        · have : p = (n, score) := by simpa using hp2
          subst this
          exact List.mem_append_right _ (by simp)
      · rw [List.pairwise_append]
        refine ⟨h.2, List.pairwise_singleton _ _, ?_⟩
        intro a ha b hb
        have hb' : b = (n, score) := by simpa using hb
        subst hb'
        intro hkey
        exact hnew (hkey ▸ h.1 a ha)

/-- get_next_settings preserves the frontier/visited invariant. -/
theorem get_next_settings_inv (st : OptimizerState) (h : QueueInv st) :
    QueueInv (get_next_settings st).1 := by
  rcases hq : st.search_queue with _ | ⟨⟨s, sc⟩, rest⟩
  · simpa [get_next_settings, hq] using h
  · have h1 := h.1
    have h2 := h.2
    rw [hq] at h2
    constructor
    · intro p hp
      simp only [get_next_settings, hq] at hp ⊢
      exact h1 p (by rw [hq]; exact List.mem_cons_of_mem _ hp)
    · simp only [get_next_settings, hq]
      exact (List.pairwise_cons.mp h2).2

/-- One optimization call only grows the visited set. -/
theorem bfs_optimize_visited_mono (st : OptimizerState) (score : ℚ) (fb : String)
    (k : SettingsKey) (hk : k ∈ st.visited_settings) :
    k ∈ ((bfs_optimize st score fb).1).visited_settings := by
  unfold bfs_optimize
  rw [get_next_settings_visited]
  split
  · exact enqueue_neighbors_visited_mono score _ st k hk
  · exact enqueue_neighbors_visited_mono score _ st k hk

/-- One optimization call never moves the current best settings point. -/
theorem bfs_optimize_best_settings (st : OptimizerState) (score : ℚ) (fb : String) :
    ((bfs_optimize st score fb).1).best_settings = st.best_settings := by
  unfold bfs_optimize
  rw [get_next_settings_best_settings]
  split
  · rfl
  · exact enqueue_neighbors_best_settings score _ st

/-- One optimization call preserves the frontier/visited invariant. -/
theorem bfs_optimize_inv (st : OptimizerState) (score : ℚ) (fb : String)
    (hinv : QueueInv st) : QueueInv ((bfs_optimize st score fb).1) := by
  unfold bfs_optimize
  apply get_next_settings_inv
  split
  · exact enqueue_neighbors_inv score _ st hinv
  · exact enqueue_neighbors_inv score _ st hinv

/-- Claim C5: the visited set only grows across optimization calls; a
neighbor is enqueued only when its 2-decimal key is unseen and the key is
marked visited at enqueue time, so the frontier never holds two entries with
the same discretized key; two successive calls are made from the same
settings point and their frontier still has pairwise distinct keys. -/
theorem C5_dedup (st : OptimizerState) (score score2 : ℚ) (fb fb2 : String)
    (hinv : QueueInv st) :
    (∀ k ∈ st.visited_settings, k ∈ ((bfs_optimize st score fb).1).visited_settings) ∧
    ((bfs_optimize st score fb).1).best_settings = st.best_settings ∧
    QueueInv ((bfs_optimize st score fb).1) ∧
    ((bfs_optimize ((bfs_optimize st score fb).1) score2 fb2).1).search_queue.Pairwise
      (fun p q => settings_to_key p.1 ≠ settings_to_key q.1) :=
  ⟨fun k hk => bfs_optimize_visited_mono st score fb k hk,
    bfs_optimize_best_settings st score fb,
    bfs_optimize_inv st score fb hinv,
    (bfs_optimize_inv _ score2 fb2 (bfs_optimize_inv st score fb hinv)).2⟩

/-- Witness for C5 from the freshly initialized optimizer. -/
theorem C5_dedup_witness :
    ((bfs_optimize initOptimizer 80 "perfect").1).best_settings
      = initOptimizer.best_settings :=
  (C5_dedup initOptimizer 80 10 "perfect" "faster"
    ⟨fun p hp => absurd hp (List.not_mem_nil p), List.Pairwise.nil⟩).2.1

/-- Updating the pinch history leaves the point condition unchanged. -/
theorem pointCond_update (st : TrackerState) (h : List Bool) (lm : List (ℤ × ℤ)) :
    pointCond { st with pinch_history := h } lm = pointCond st lm := rfl

/-- Claim C3: on a frame of exactly 21 landmarks, classification is
first-match-wins in the order pinch, point, peace, fist, open_hand, other:
a stable pinch yields "pinch" regardless of finger extensions; otherwise the
point condition yields "point" regardless of the fist or open-hand
conditions; otherwise peace beats fist and open_hand; a frame matching no
condition yields "other". -/
theorem C3_gesture_precedence (st : TrackerState) (lm : List (ℤ × ℤ))
    (hlen : lm.length = 21) :
    ((detect_pinch_gesture st.pinch_history lm).1 = true →
      (detect_gestures st lm).1 = "pinch") ∧
    ((detect_pinch_gesture st.pinch_history lm).1 = false →
      pointCond st lm = true →
      (detect_gestures st lm).1 = "point") ∧
    ((detect_pinch_gesture st.pinch_history lm).1 = false →
      pointCond st lm = false → peaceCond lm = true →
      (detect_gestures st lm).1 = "peace") ∧
    ((detect_pinch_gesture st.pinch_history lm).1 = false →
      pointCond st lm = false → peaceCond lm = false → fistCond lm = true →
      (detect_gestures st lm).1 = "fist") ∧
    ((detect_pinch_gesture st.pinch_history lm).1 = false →
      pointCond st lm = false → peaceCond lm = false → fistCond lm = false →
      openHandCond lm = true →
      (detect_gestures st lm).1 = "open_hand") ∧
    ((detect_pinch_gesture st.pinch_history lm).1 = false →
      pointCond st lm = false → peaceCond lm = false → fistCond lm = false →
      openHandCond lm = false →
      (detect_gestures st lm).1 = "other") := by
  have hn : ¬ (lm.length < 21) := by omega
  refine ⟨?_, ?_, ?_, ?_, ?_, ?_⟩
  · intro h
    simp [detect_gestures, hn, h]
  · intro h hp
    simp [detect_gestures, hn, h, pointCond_update, hp]
  · intro h hp hq
    simp [detect_gestures, hn, h, pointCond_update, hp, hq]
  · intro h hp hq hf
    simp [detect_gestures, hn, h, pointCond_update, hp, hq, hf]
  · intro h hp hq hf ho
    simp [detect_gestures, hn, h, pointCond_update, hp, hq, hf, ho]
  · intro h hp hq hf ho
    simp [detect_gestures, hn, h, pointCond_update, hp, hq, hf, ho]

/-- Witness for C3: a concrete point frame with no stable pinch. -/
theorem C3_gesture_precedence_witness :
    (detect_gestures { cursor_finger := Finger.index, pinch_history := [] }
      pointFrame).1 = "point" :=
  (C3_gesture_precedence { cursor_finger := Finger.index, pinch_history := [] }
    pointFrame (by decide)).2.1 (by decide) (by decide)

/-- runPinch distributes over list append. -/
theorem runPinch_append (l1 l2 : List (ℚ × Bool)) :
    ∀ st : CursorState,
      runPinch st (l1 ++ l2) =
        ((runPinch (runPinch st l1).1 l2).1,
          (runPinch st l1).2 ++ (runPinch (runPinch st l1).1 l2).2) := by
  induction l1 with
  | nil => intro st; simp [runPinch]
  | cons p rest ih =>
    intro st
    obtain ⟨t, a⟩ := p
    simp only [List.cons_append, runPinch, List.append_eq]
    rw [ih ((st.handle_pinch_gesture a t).1)]
    simp [List.append_assoc]

/-- While holding, further active pinch samples are no-ops. -/
theorem runPinch_actives_holding (ts : List ℚ) :
    ∀ st : CursorState, st.is_holding = true →
      runPinch st (ts.map (fun u => (u, true))) = (st, []) := by
  induction ts with
  | nil => intro st _; rfl
  | cons u rest ih =>
    intro st hh
    have hstep : st.handle_pinch_gesture true u = (st, []) := by
      simp [CursorState.handle_pinch_gesture, hh]
    simp only [List.map_cons, runPinch, hstep]
    simp [ih st hh]

/-- While pending below the hold threshold, active pinch samples are no-ops. -/
theorem runPinch_actives_pending (ts : List ℚ) :
    ∀ st : CursorState, st.is_holding = false → st.hold_start_time ≠ 0 →
      (∀ u ∈ ts, ¬ (u - st.hold_start_time > hold_threshold)) →
      runPinch st (ts.map (fun u => (u, true))) = (st, []) := by
  induction ts with
  | nil => intro st _ _ _; rfl
  | cons u rest ih =>
    intro st hh hs hle
    have hnot : ¬ (u - st.hold_start_time > hold_threshold) :=
      hle u (List.mem_cons_self u rest)
    have hstep : st.handle_pinch_gesture true u = (st, []) := by
      simp [CursorState.handle_pinch_gesture, hh, hs, hnot]
    simp only [List.map_cons, runPinch, hstep]
    simp [ih st hh hs (fun v hv => hle v (List.mem_cons_of_mem _ hv))]

/-- Once some active sample exceeds the hold threshold, exactly one
hold-begin fires over the active run. -/
theorem runPinch_actives_trigger (ts : List ℚ) :
    ∀ st : CursorState, st.is_holding = false → st.hold_start_time ≠ 0 →
      (∃ u ∈ ts, u - st.hold_start_time > hold_threshold) →
      runPinch st (ts.map (fun u => (u, true)))
        = ({ st with is_holding := true }, [Event.mouseDown]) := by
  induction ts with
  | nil => intro st _ _ hex; simp at hex
  | cons u rest ih =>
    intro st hh hs hex
    by_cases ht : u - st.hold_start_time > hold_threshold
    · have hstep : st.handle_pinch_gesture true u
          = ({ st with is_holding := true }, [Event.mouseDown]) := by
        simp [CursorState.handle_pinch_gesture, hh, hs, ht]
      simp only [List.map_cons, runPinch, hstep]
      simp [runPinch_actives_holding rest { st with is_holding := true } rfl]
    · have hstep : st.handle_pinch_gesture true u = (st, []) := by
        simp [CursorState.handle_pinch_gesture, hh, hs, ht]
      obtain ⟨v, hv, hgt⟩ := hex
      have hv' : v ∈ rest := by
        rcases List.mem_cons.mp hv with h1 | h1
        · exact absurd (h1 ▸ hgt) ht
        · exact h1
      simp only [List.map_cons, runPinch, hstep]
      simp [ih st hh hs ⟨v, hv', hgt⟩]

/-- Claim C2: feeding the pinch handler a trace that becomes active at t0
and inactive at t within the hold threshold (with the click cooldown
elapsed) fires exactly one click and no hold events; if some active sample
exceeds the threshold, exactly one hold-begin fires followed by exactly one
hold-end at the first inactive sample, and no click. -/
theorem C2_click_vs_hold :
    (∀ (st : CursorState) (t0 t : ℚ) (ts : List ℚ),
      st.is_holding = false → st.hold_start_time = 0 → 0 < t0 →
      (∀ u ∈ ts, t0 < u ∧ u < t) →
      t - t0 < hold_threshold →
      t - st.last_click_time > click_cooldown →
      (runPinch st ((t0, true) :: ts.map (fun u => (u, true)) ++ [(t, false)])).2
        = [Event.click]) ∧
    (∀ (st : CursorState) (t0 t : ℚ) (ts : List ℚ),
      st.is_holding = false → st.hold_start_time = 0 → 0 < t0 →
      (∃ u ∈ ts, u - t0 > hold_threshold) →
      (runPinch st ((t0, true) :: ts.map (fun u => (u, true)) ++ [(t, false)])).2
        = [Event.mouseDown, Event.mouseUp]) := by
  constructor
  · intro st t0 t ts hh hs h0 hmono hlt hcool
    have hstep : st.handle_pinch_gesture true t0
        = ({ st with hold_start_time := t0 }, []) := by
      simp [CursorState.handle_pinch_gesture, hh, hs]
    have h1h : ({ st with hold_start_time := t0 } : CursorState).is_holding = false := hh
    have h1s : ({ st with hold_start_time := t0 } : CursorState).hold_start_time ≠ 0 :=
      ne_of_gt h0
    have hmid : runPinch { st with hold_start_time := t0 }
        (ts.map (fun u => (u, true))) = ({ st with hold_start_time := t0 }, []) := by
      apply runPinch_actives_pending ts _ h1h h1s
      intro u hu
      have h2 := hmono u hu
      show ¬ (u - t0 > hold_threshold)
      exact not_lt.mpr (by linarith)
    have hfin : CursorState.handle_pinch_gesture { st with hold_start_time := t0 } false t
        = ({ st with hold_start_time := 0, last_click_time := t }, [Event.click]) := by
      simp [CursorState.handle_pinch_gesture, hh, h0, hlt, hcool]
    simp only [runPinch, hstep, List.append_eq]
    rw [runPinch_append]
    rw [hmid]
    simp only [runPinch, hfin]
    simp
  · intro st t0 t ts hh hs h0 hex
    have hstep : st.handle_pinch_gesture true t0
        = ({ st with hold_start_time := t0 }, []) := by
      simp [CursorState.handle_pinch_gesture, hh, hs]
    have h1h : ({ st with hold_start_time := t0 } : CursorState).is_holding = false := hh
    have h1s : ({ st with hold_start_time := t0 } : CursorState).hold_start_time ≠ 0 :=
      ne_of_gt h0
    have htrig : runPinch { st with hold_start_time := t0 }
        (ts.map (fun u => (u, true)))
        = ({ st with hold_start_time := t0, is_holding := true }, [Event.mouseDown]) := by
      have := runPinch_actives_trigger ts { st with hold_start_time := t0 } h1h h1s hex
      exact this
    have hfin : CursorState.handle_pinch_gesture
        { st with hold_start_time := t0, is_holding := true } false t
        = ({ st with hold_start_time := 0, is_holding := false }, [Event.mouseUp]) := by
      simp [CursorState.handle_pinch_gesture]
    simp only [runPinch, hstep, List.append_eq]
    rw [runPinch_append]
    rw [htrig]
    simp only [runPinch, hfin]
    simp

/-- Witness for C2: a 0.1s pinch clicks; a pinch with a sample 0.5s in
holds then releases. -/
theorem C2_click_vs_hold_witness :
    (runPinch initState [(1, true), (11 / 10, false)]).2 = [Event.click] ∧
    (runPinch initState [(1, true), (3 / 2, true), (2, false)]).2
      = [Event.mouseDown, Event.mouseUp] := by
  constructor
  · exact C2_click_vs_hold.1 initState 1 (11 / 10) [] rfl rfl (by norm_num)
      (by intro u hu; simp at hu)
      (by show (11 : ℚ) / 10 - 1 < 3 / 10; norm_num)
      (by show (11 : ℚ) / 10 - 0 > 3 / 20; norm_num)
  · exact C2_click_vs_hold.2 initState 1 2 [3 / 2] rfl rfl (by norm_num)
      ⟨3 / 2, by simp, by show (3 : ℚ) / 2 - 1 > 3 / 10; norm_num⟩

/-- The jitter filter only touches the position history. -/
theorem apply_jitter_filter_state (st : CursorState) (x y : ℚ) :
    (st.apply_jitter_filter x y).1 =
      { st with position_history := pushHistory st.position_history (x, y) } := by
  unfold CursorState.apply_jitter_filter
  dsimp only
  split <;> rfl

/-- Truncating a value clamped into [0, n-1] stays in [0, n-1]. -/
theorem pyInt_clamp (q : ℚ) (n : ℤ) (hn : 1 ≤ n) :
    0 ≤ pyInt (max 0 (min ((n : ℚ) - 1) q)) ∧
      pyInt (max 0 (min ((n : ℚ) - 1) q)) ≤ n - 1 := by
  have hv0 : (0 : ℚ) ≤ max 0 (min ((n : ℚ) - 1) q) := le_max_left _ _
  have hn' : (1 : ℚ) ≤ (n : ℚ) := by exact_mod_cast hn
  have hv1 : max 0 (min ((n : ℚ) - 1) q) ≤ (n : ℚ) - 1 :=
    max_le (by linarith) (min_le_left _ _)
  unfold pyInt
  rw [if_pos hv0]
  refine ⟨Int.floor_nonneg.mpr hv0, ?_⟩
  have h2 : (⌊max 0 (min ((n : ℚ) - 1) q)⌋ : ℚ) ≤ ((n - 1 : ℤ) : ℚ) := by
    push_cast
    exact le_trans (Int.floor_le _) hv1
  exact_mod_cast h2

/-- Claim C9: with the cursor enabled and a previous output other than
(0,0), every successful map_coordinates call returns a coordinate inside
[0, screen_width-1] x [0, screen_height-1]; a seeding call (previous output
exactly (0,0)) returns the unclamped jitter-filtered point directly, and
with sensitivity 2 a concrete seeding call returns 200 on a 100-wide
screen, exceeding screen_width - 1. -/
theorem C9_output_bounds :
    (∀ (st : CursorState) (hx hy fw fh : ℚ) (sw sh : ℤ)
      (st' : CursorState) (ox oy : ℤ),
      st.cursor_enabled = true →
      ¬ (st.prev_x = 0 ∧ st.prev_y = 0) →
      1 ≤ sw → 1 ≤ sh →
      st.map_coordinates hx hy fw fh sw sh = some (st', ox, oy) →
      0 ≤ ox ∧ ox ≤ sw - 1 ∧ 0 ≤ oy ∧ oy ≤ sh - 1) ∧
    (∀ (st : CursorState) (hx hy fw fh : ℚ) (sw sh : ℤ),
      st.cursor_enabled = true → st.prev_x = 0 → st.prev_y = 0 →
      fw - 2 * 40 ≠ 0 → fh - 2 * 40 ≠ 0 →
      (st.map_coordinates hx hy fw fh sw sh).map (fun r => r.2) =
        some
          (pyInt (st.apply_jitter_filter (st.targetPoint hx hy fw fh sw sh).1
              (st.targetPoint hx hy fw fh sw sh).2).2.1,
           pyInt (st.apply_jitter_filter (st.targetPoint hx hy fw fh sw sh).1
              (st.targetPoint hx hy fw fh sw sh).2).2.2)) ∧
    (((({ initState with adaptive_sensitivity := 2 } : CursorState).map_coordinates
        200 200 200 200 100 100).map (fun r => r.2) = some (200, 200)) ∧
      ((100 : ℤ) - 1 < 200)) := by
  have hpart2 : ∀ (st : CursorState) (hx hy fw fh : ℚ) (sw sh : ℤ),
      st.cursor_enabled = true → st.prev_x = 0 → st.prev_y = 0 →
      fw - 2 * 40 ≠ 0 → fh - 2 * 40 ≠ 0 →
      (st.map_coordinates hx hy fw fh sw sh).map (fun r => r.2) =
        some
          (pyInt (st.apply_jitter_filter (st.targetPoint hx hy fw fh sw sh).1
              (st.targetPoint hx hy fw fh sw sh).2).2.1,
           pyInt (st.apply_jitter_filter (st.targetPoint hx hy fw fh sw sh).1
              (st.targetPoint hx hy fw fh sw sh).2).2.2) := by
    intro st hx hy fw fh sw sh hen hpx hpy hzw hzh
    have h1 : ¬ (st.cursor_enabled = false) := by simp [hen]
    have hz : ¬ (fw - 2 * 40 = 0 ∨ fh - 2 * 40 = 0) := not_or.mpr ⟨hzw, hzh⟩
    unfold CursorState.map_coordinates
    rw [if_neg h1, if_neg hz]
    dsimp only
    rw [apply_jitter_filter_state]
    dsimp only
    rw [if_pos ⟨hpx, hpy⟩]
    rfl
  refine ⟨?_, hpart2, ?_, by norm_num⟩
  · intro st hx hy fw fh sw sh st' ox oy hen hprev hsw hsh hmap
    have h1 : ¬ (st.cursor_enabled = false) := by simp [hen]
    unfold CursorState.map_coordinates at hmap
    rw [if_neg h1] at hmap
    by_cases hz : fw - 2 * 40 = 0 ∨ fh - 2 * 40 = 0
    · rw [if_pos hz] at hmap
      exact absurd hmap (by simp)
    · rw [if_neg hz] at hmap
      dsimp only at hmap
      rw [apply_jitter_filter_state] at hmap
      dsimp only at hmap
      rw [if_neg hprev] at hmap
      have h := Option.some.inj hmap
      have hox := congrArg (fun p => p.2.1) h
      have hoy := congrArg (fun p => p.2.2) h
      dsimp only at hox hoy
      rw [← hox, ← hoy]
      obtain ⟨ha, hb⟩ := pyInt_clamp _ sw hsw
      obtain ⟨hc, hd⟩ := pyInt_clamp _ sh hsh
      exact ⟨ha, hb, hc, hd⟩
  · rw [hpart2 _ 200 200 200 200 100 100 rfl rfl rfl (by norm_num) (by norm_num)]
    have htp : ({ initState with adaptive_sensitivity := 2 } : CursorState).targetPoint
        200 200 200 200 100 100 = (200, 200) := by
      unfold CursorState.targetPoint clip
      dsimp only [initState]
      rw [show ((200 : ℚ) - 40) / (200 - 2 * 40) = 4 / 3 by norm_num]
      rw [min_eq_left (by norm_num : (1 : ℚ) ≤ 4 / 3)]
      rw [max_eq_right (by norm_num : (0 : ℚ) ≤ 1)]
      norm_num
    rw [htp]
    have hjf : ({ initState with adaptive_sensitivity := 2 } : CursorState).apply_jitter_filter
        200 200 =
        (({ initState with
            adaptive_sensitivity := 2
            position_history := [((200 : ℚ), (200 : ℚ))] } : CursorState),
          (200 : ℚ), (200 : ℚ)) := rfl
    dsimp only
    rw [hjf]
    have hpy200 : pyInt 200 = 200 := by
      unfold pyInt
      rw [if_pos (by norm_num)]
      norm_num
    dsimp only
    rw [hpy200]

/-- Witness for C9: a seeding call with everything in range. -/
theorem C9_output_bounds_witness :
    (initState.map_coordinates 100 100 200 200 1920 1080).map (fun r => r.2) =
      some
        (pyInt (initState.apply_jitter_filter
            (initState.targetPoint 100 100 200 200 1920 1080).1
            (initState.targetPoint 100 100 200 200 1920 1080).2).2.1,
         pyInt (initState.apply_jitter_filter
            (initState.targetPoint 100 100 200 200 1920 1080).1
            (initState.targetPoint 100 100 200 200 1920 1080).2).2.2) :=
  C9_output_bounds.2.1 initState 100 100 200 200 1920 1080 rfl rfl rfl
    (by norm_num) (by norm_num)

end HGMC
